import Mathlib

/-
  Verification of the upload ingestion pipeline of the bingein_ott platform.

  The embedded code is the Vercel serverless handler in src/unnamed/part_001
  (the ESM formidable variant with teamId-derived permissions), which subsumes
  the variants in src/unnamed/part_000 and src/bingein_ott/api/upload-video.js
  for the properties below; differences between the variants are noted inline.

  The handler is modelled as a pure function of
    - the HTTP method,
    - the outcome of multipart parsing (a ParsedForm, or a parse error),
    - the current timestamp string, and
    - a World fixing the outcome each collaborator call would have,
  returning the HTTP-level result together with a Trace recording, in order,
  the object-storage calls, the document-store calls, any blob-deletion calls
  and the attempted unlinks of staging files.
-/

namespace BingeIn

/-- JS truthiness of an optional string field: `undefined` and the empty
string are falsy, every other string is truthy (no trimming). -/
def strPresent : Option String → Bool
  | none => false
  | some s => !(s == "")

/-- Whitespace skipped by ECMAScript parseInt before the number. -/
def jsWhitespace (c : Char) : Bool :=
  c == ' ' || c == '\t' || c == '\n' || c == '\r' || c == '\x0b' || c == '\x0c'

/-- Numeric value of a decimal digit character. -/
def digitVal (c : Char) : Nat := c.toNat - 48

/-- Value of a list of decimal digit characters, most significant first. -/
def digitsToNat (ds : List Char) : Nat :=
  ds.foldl (fun a c => a * 10 + digitVal c) 0

/-- Longest leading run of decimal digits; none when there is no digit. -/
def parseDigits (cs : List Char) : Option Nat :=
  let ds := cs.takeWhile Char.isDigit
  if ds.isEmpty then none else some (digitsToNat ds)

/-- Model of ECMAScript parseInt(s, 10): skip leading whitespace, take an
optional sign, then the longest run of decimal digits; `none` models NaN. -/
def jsParseInt (s : String) : Option Int :=
  let cs := s.data.dropWhile jsWhitespace
  match cs with
  | [] => none
  | c :: rest =>
    if c = '-' then (parseDigits rest).map (fun n => -(n : Int))
    else if c = '+' then (parseDigits rest).map (fun n => (n : Int))
    else (parseDigits (c :: rest)).map (fun n => (n : Int))

/-- A file part as produced by formidable: staged at `filepath` under the
upload directory, with the client-declared original name and media type. -/
structure FormFile where
  filepath : String
  originalFilename : Option String
  mimetype : String
deriving Repr, DecidableEq

/-- The fields and files of a parsed multipart request.  formidable returns
each field either as a scalar or as a one-element array; the handler collapses
both to the single value (Array.isArray ? x[0] : x), which this structure
represents directly, with `none` for an absent field. -/
structure ParsedForm where
  title : Option String
  description : Option String
  duration : Option String
  isPremium : Option String
  genre : Option String
  tags : Option String
  teamId : Option String
  videoFile : Option FormFile
  thumbnailFile : Option FormFile
deriving Repr, DecidableEq

/-- duration extraction: parseInt applied to the field; parseInt(undefined)
is NaN, modelled as none. -/
def extractDuration (f : ParsedForm) : Option Int :=
  match f.duration with
  | some s => jsParseInt s
  | none => none

/-- isPremium extraction: strict string comparison with the literal "true";
absence gives false.  Identical in all three handler variants (formidable:
fields.isPremium === 'true' with undefined === 'true' false; busboy:
formData.has(..) ? formData.get(..) === 'true' : false). -/
def extractIsPremium : Option String → Bool
  | some s => s == "true"
  | none => false

/-- Validation condition of src/unnamed/part_001 line 72:
!title || !description || isNaN(duration) || !videoFile || !thumbnailFile
|| !teamId.  Truthiness only: no trimming, no positivity check. -/
def validationFails (f : ParsedForm) : Bool :=
  !(strPresent f.title) || !(strPresent f.description)
  || (extractDuration f).isNone
  || f.videoFile.isNone || f.thumbnailFile.isNone
  || !(strPresent f.teamId)

/-- Appwrite Role values used by the handler. -/
inductive Role where
  | any : Role
  | team : String → Role
deriving Repr, DecidableEq

/-- Appwrite Permission values used by the handler. -/
inductive AppwritePermission where
  | read : Role → AppwritePermission
  | update : Role → AppwritePermission
  | delete : Role → AppwritePermission
deriving Repr, DecidableEq

/-- The videoData record submitted to the document store (part_001 lines
94-105): both URLs copied from the storage results, viewsCount 0. -/
structure VideoData where
  title : String
  description : String
  duration : Int
  isPremium : Bool
  genre : String
  tags : String
  thumbnailUrl : String
  videoUrl : String
  viewsCount : Nat
  uploadDate : String
deriving Repr, DecidableEq

/-- Result of a Vercel Blob put call. -/
structure BlobResult where
  url : String
deriving Repr, DecidableEq

/-- Outcomes the external collaborators would produce if called, plus whether
each unlink of a staging file would succeed.  Errors carry the diagnostic
message string that the handler surfaces as `details`. -/
structure World where
  videoPut : Except String BlobResult
  thumbPut : Except String BlobResult
  createDoc : Except String String
  unlinkVideoOk : Bool
  unlinkThumbOk : Bool
deriving Repr

/-- Trace of outward-visible effects of one handler run: object-storage put
calls (name and media type, in order), document-store createDocument calls
(payload and permission list), blob deletion calls, and the staging-file
unlink attempts. -/
structure Trace where
  storageCalls : List (String × String)
  dbCalls : List (VideoData × List AppwritePermission)
  assetDeleteCalls : Nat
  unlinkAttempts : List String
deriving Repr, DecidableEq

def emptyTrace : Trace :=
  { storageCalls := [], dbCalls := [], assetDeleteCalls := 0, unlinkAttempts := [] }

/-- HTTP-level outcome of the handler: 405, 400, 500 with the collaborator
diagnostic, or 200 with the created record and the two blob URLs. -/
inductive HandlerResult where
  | methodNotAllowed : HandlerResult
  | badRequest : HandlerResult
  | serverError : String → HandlerResult
  | ok : VideoData → String → String → HandlerResult
deriving Repr, DecidableEq

/-- Last path component, modelling path.basename. -/
def basename (p : String) : String :=
  (p.splitOn "/").getLastD p

/-- Name passed to the blob store: originalFilename || basename(filepath),
with the JS-falsy empty string falling through to the fallback. -/
def putName (file : FormFile) : String :=
  match file.originalFilename with
  | some s => if s == "" then basename file.filepath else s
  | none => basename file.filepath

/-- The staging upload directory configured in parseForm. -/
def uploadDir : String := "./tmp"

/-- The filename callback given to formidable in parseForm (part_001 lines
147-149 and part_000 lines 205-207): the client-declared original filename
when truthy, otherwise fieldName ++ ext.  No random or per-request component
is mixed in. -/
def stagingFilename (fieldName ext : String) (originalFilename : Option String) : String :=
  match originalFilename with
  | some s => if s == "" then fieldName ++ ext else s
  | none => fieldName ++ ext

/-- The full staging path a given request stages a part at.  The request is
identified by `requestId` to let distinct concurrent requests be compared;
the configuration the source passes to formidable is a per-module constant,
so the path the code produces does not depend on it. -/
def requestStagingPath (requestId : Nat) (fieldName ext : String)
    (originalFilename : Option String) : String :=
  let _ := requestId
  uploadDir ++ "/" ++ stagingFilename fieldName ext originalFilename

/-- The videoData object literal of part_001 lines 94-105, as a function of
the parsed form, the timestamp and the two blob URLs.  The getD defaults
model the JS values only formally: on the path that builds this record,
validation has already established each of these fields. -/
def builtDoc (f : ParsedForm) (now vurl turl : String) : VideoData :=
  { title := f.title.getD ""
    description := f.description.getD ""
    duration := (extractDuration f).getD 0
    isPremium := extractIsPremium f.isPremium
    genre := f.genre.getD ""
    tags := f.tags.getD ""
    thumbnailUrl := turl
    videoUrl := vurl
    viewsCount := 0
    uploadDate := now }

/-- The permissions array of part_001 lines 107-113: public read, update and
delete restricted to the team named by the teamId field. -/
def teamPerms (team : String) : List AppwritePermission :=
  [ .read .any, .update (.team team), .delete (.team team) ]

/-- Shallow embedding of the default-export handler of
src/unnamed/part_001.  `parseOutcome` is the settled promise of parseForm
(reject modelled as .error, caught by the outer try as a 500); `now` is
new Date().toISOString(). -/
def handler (method : String) (parseOutcome : Except String ParsedForm)
    (now : String) (w : World) : HandlerResult × Trace :=
  if !(method == "POST") then
    (.methodNotAllowed, emptyTrace)
  else
    match parseOutcome with
    | .error e => (.serverError e, emptyTrace)
    | .ok f =>
      if validationFails f then
        -- lines 73-76: unlink each staged file (each with its own catch),
        -- then respond 400
        let u1 := match f.videoFile with | some vf => [vf.filepath] | none => []
        let u2 := match f.thumbnailFile with | some tf => [tf.filepath] | none => []
        (.badRequest, { emptyTrace with unlinkAttempts := u1 ++ u2 })
      else
        match f.videoFile, f.thumbnailFile, f.teamId with
        | some vf, some tf, some team =>
          let t1 := { emptyTrace with storageCalls := [(putName vf, vf.mimetype)] }
          match w.videoPut with
          | .error e => (.serverError e, t1)  -- thrown, caught at line 131: no cleanup
          | .ok vblob =>
            let t2 := { t1 with
              storageCalls := t1.storageCalls ++ [(putName tf, tf.mimetype)] }
            match w.thumbPut with
            | .error e => (.serverError e, t2)  -- thrown, caught: no cleanup
            | .ok tblob =>
              -- lines 88-92: one try block; if the first unlink throws the
              -- second is never attempted, and the catch only warns
              let cleanup := if w.unlinkVideoOk
                then [vf.filepath, tf.filepath] else [vf.filepath]
              let t3 := { t2 with unlinkAttempts := cleanup }
              let doc := builtDoc f now vblob.url tblob.url
              let perms := teamPerms team
              let t4 := { t3 with dbCalls := [(doc, perms)] }
              match w.createDoc with
              | .error e => (.serverError e, t4)
              | .ok _ => (.ok doc vblob.url tblob.url, t4)
        | _, _, _ =>
          -- unreachable: validationFails f = false forces all three present
          (.badRequest, emptyTrace)

/-- The list of staging filepaths a successfully parsed form created. -/
def stagedFiles (f : ParsedForm) : List String :=
  (match f.videoFile with | some vf => [vf.filepath] | none => [])
  ++ (match f.thumbnailFile with | some tf => [tf.filepath] | none => [])

/-! Concrete sample inputs used by witnesses and counterexamples, taken from
the concrete scenario in the specification. -/

def sampleVideoFile : FormFile :=
  { filepath := "./tmp/movie.mp4", originalFilename := some "movie.mp4"
    mimetype := "video/mp4" }

def sampleThumbFile : FormFile :=
  { filepath := "./tmp/thumb.jpg", originalFilename := some "thumb.jpg"
    mimetype := "image/jpeg" }

def sampleForm : ParsedForm :=
  { title := some "Trailer", description := some "A short trailer"
    duration := some "120", isPremium := some "true", genre := some "Action"
    tags := some "trailer,action", teamId := some "team_1"
    videoFile := some sampleVideoFile, thumbnailFile := some sampleThumbFile }

def okWorld : World :=
  { videoPut := .ok { url := "https://blob.example/movie.mp4" }
    thumbPut := .ok { url := "https://blob.example/thumb.jpg" }
    createDoc := .ok "doc_1", unlinkVideoOk := true, unlinkThumbOk := true }

def vFailWorld : World := { okWorld with videoPut := .error "blob video down" }

def tFailWorld : World := { okWorld with thumbPut := .error "blob thumb down" }

/-! Path-characterization lemmas: the value of one full handler run on each
control-flow path, shared by the claim theorems below. -/

lemma handler_non_post (method : String) (p : Except String ParsedForm)
    (now : String) (w : World) (h : ¬ method = "POST") :
    handler method p now w = (.methodNotAllowed, emptyTrace) := by
  simp [handler, h]

lemma handler_parse_error (e now : String) (w : World) :
    handler "POST" (.error e) now w = (.serverError e, emptyTrace) := by
  simp [handler]

lemma handler_validation_fail (f : ParsedForm) (now : String) (w : World)
    (hv : validationFails f = true) :
    handler "POST" (.ok f) now w =
      (.badRequest, { emptyTrace with unlinkAttempts := stagedFiles f }) := by
  simp [handler, hv, stagedFiles]

lemma handler_video_put_fails (f : ParsedForm) (now : String) (w : World)
    (vf tf : FormFile) (team e : String)
    (hv : validationFails f = false) (h1 : f.videoFile = some vf)
    (h2 : f.thumbnailFile = some tf) (h3 : f.teamId = some team)
    (he : w.videoPut = .error e) :
    handler "POST" (.ok f) now w =
      (.serverError e,
       { emptyTrace with storageCalls := [(putName vf, vf.mimetype)] }) := by
  simp [handler, hv, h1, h2, h3, he]

lemma handler_thumb_put_fails (f : ParsedForm) (now : String) (w : World)
    (vf tf : FormFile) (team e : String) (vb : BlobResult)
    (hv : validationFails f = false) (h1 : f.videoFile = some vf)
    (h2 : f.thumbnailFile = some tf) (h3 : f.teamId = some team)
    (hok : w.videoPut = .ok vb) (he : w.thumbPut = .error e) :
    handler "POST" (.ok f) now w =
      (.serverError e,
       { emptyTrace with
          storageCalls := [(putName vf, vf.mimetype), (putName tf, tf.mimetype)] }) := by
  simp [handler, hv, h1, h2, h3, hok, he]

/-- The trace of a run that got past both storage calls. -/
def postStorageTrace (f : ParsedForm) (now : String) (w : World)
    (vf tf : FormFile) (team : String) (vb tb : BlobResult) : Trace :=
  { storageCalls := [(putName vf, vf.mimetype), (putName tf, tf.mimetype)]
    dbCalls := [(builtDoc f now vb.url tb.url, teamPerms team)]
    assetDeleteCalls := 0
    unlinkAttempts :=
      if w.unlinkVideoOk then [vf.filepath, tf.filepath] else [vf.filepath] }

lemma handler_persist_fails (f : ParsedForm) (now : String) (w : World)
    (vf tf : FormFile) (team e : String) (vb tb : BlobResult)
    (hv : validationFails f = false) (h1 : f.videoFile = some vf)
    (h2 : f.thumbnailFile = some tf) (h3 : f.teamId = some team)
    (hok1 : w.videoPut = .ok vb) (hok2 : w.thumbPut = .ok tb)
    (he : w.createDoc = .error e) :
    handler "POST" (.ok f) now w =
      (.serverError e, postStorageTrace f now w vf tf team vb tb) := by
  simp [handler, hv, h1, h2, h3, hok1, hok2, he, postStorageTrace, emptyTrace]

lemma handler_success (f : ParsedForm) (now : String) (w : World)
    (vf tf : FormFile) (team did : String) (vb tb : BlobResult)
    (hv : validationFails f = false) (h1 : f.videoFile = some vf)
    (h2 : f.thumbnailFile = some tf) (h3 : f.teamId = some team)
    (hok1 : w.videoPut = .ok vb) (hok2 : w.thumbPut = .ok tb)
    (hok3 : w.createDoc = .ok did) :
    handler "POST" (.ok f) now w =
      (.ok (builtDoc f now vb.url tb.url) vb.url tb.url,
       postStorageTrace f now w vf tf team vb tb) := by
  simp [handler, hv, h1, h2, h3, hok1, hok2, hok3, postStorageTrace, emptyTrace]

/-- validation passing forces both file parts and the teamId to be present. -/
lemma validation_ok_parts (f : ParsedForm) (hv : validationFails f = false) :
    ∃ vf tf team, f.videoFile = some vf ∧ f.thumbnailFile = some tf
      ∧ f.teamId = some team := by
  unfold validationFails at hv
  simp only [Bool.or_eq_false_iff, Bool.not_eq_false] at hv
  obtain ⟨⟨⟨⟨⟨-, -⟩, -⟩, hvf⟩, htf⟩, hteam⟩ := hv
  rcases h1 : f.videoFile with - | vf
  · rw [h1] at hvf; simp at hvf
  rcases h2 : f.thumbnailFile with - | tf
  · rw [h2] at htf; simp at htf
  rcases h3 : f.teamId with - | team
  · rw [h3] at hteam; simp [strPresent] at hteam
  exact ⟨vf, tf, team, rfl, rfl, rfl⟩

/-- C6: isPremium extraction is the strict comparison of the field text with
the literal "true": present-and-equal gives true, everything else (absence,
"1", "TRUE") gives false.  Embeds line 62 of src/unnamed/part_001 and line 84
of src/bingein_ott/api/upload-video.js, whose semantics coincide. -/
theorem isPremium_literal_true :
    (∀ v : Option String, extractIsPremium v = true ↔ v = some "true")
    ∧ extractIsPremium none = false
    ∧ extractIsPremium (some "1") = false
    ∧ extractIsPremium (some "TRUE") = false := by
  refine ⟨fun v => ?_, rfl, by decide, by decide⟩
  cases v with
  | none => simp [extractIsPremium]
  | some s => simp [extractIsPremium]

/-- C9: a request whose method is not POST is answered 405 with an empty
effect trace, whatever the parse outcome and the collaborators would have
done: no storage call, no document-store call, no unlink.  Independence from
the parse outcome models that parsing is never started. -/
theorem non_post_rejected (method : String) (p : Except String ParsedForm)
    (now : String) (w : World) (h : ¬ method = "POST") :
    handler method p now w = (.methodNotAllowed, emptyTrace) :=
  handler_non_post method p now w h

/-- Witness for C9 at the concrete method GET. -/
theorem non_post_rejected_witness :
    handler "GET" (.ok sampleForm) "2025-01-01T00:00:00.000Z" okWorld
      = (.methodNotAllowed, emptyTrace) :=
  non_post_rejected "GET" (.ok sampleForm) "2025-01-01T00:00:00.000Z" okWorld
    (by decide)

/-- A form whose duration text is "0": every other field is well-formed.
parseInt("0") is 0, not NaN, so the source's validation accepts it. -/
def zeroDurationForm : ParsedForm := { sampleForm with duration := some "0" }

/-- A form with the title field absent. -/
def noTitleForm : ParsedForm := { sampleForm with title := none }

/-- C1 counterexample: with duration "0" (non-positive) and all other fields
well-formed, the handler does not return 400 and makes two object-storage
calls — the claim requires InvalidInput and zero collaborator calls for
non-positive durations, but the source only tests isNaN(parseInt(...)). -/
theorem c1_nonpositive_duration_accepted :
    (handler "POST" (.ok zeroDurationForm) "2025-01-01T00:00:00.000Z" okWorld).1
        ≠ .badRequest
    ∧ (handler "POST" (.ok zeroDurationForm) "2025-01-01T00:00:00.000Z"
        okWorld).2.storageCalls.length = 2 := by
  constructor
  · intro h
    have : (handler "POST" (.ok zeroDurationForm) "2025-01-01T00:00:00.000Z"
        okWorld).1 = .ok (builtDoc zeroDurationForm "2025-01-01T00:00:00.000Z"
          "https://blob.example/movie.mp4" "https://blob.example/thumb.jpg")
          "https://blob.example/movie.mp4" "https://blob.example/thumb.jpg" := by
      rw [handler_success zeroDurationForm _ okWorld sampleVideoFile
        sampleThumbFile "team_1" "doc_1" _ _ (by decide) rfl rfl rfl rfl rfl rfl]
    rw [this] at h
    exact HandlerResult.noConfusion h
  · rw [handler_success zeroDurationForm _ okWorld sampleVideoFile
      sampleThumbFile "team_1" "doc_1" _ _ (by decide) rfl rfl rfl rfl rfl rfl]
    rfl

/-- C1 amended: whenever title or description is absent or empty (truthiness,
no trimming), parseInt of the duration text is NaN, either file part is
absent, or the teamId is absent or empty, the handler returns 400 and makes
zero object-storage and zero document-store calls.  The duration check is
only isNaN: values parsing to zero or a negative integer are accepted, and
whitespace-only title or description is accepted. -/
theorem invalid_input_rejected_before_collaborators (f : ParsedForm)
    (now : String) (w : World)
    (h : f.title = none ∨ f.title = some "" ∨ f.description = none
      ∨ f.description = some "" ∨ extractDuration f = none
      ∨ f.videoFile = none ∨ f.thumbnailFile = none
      ∨ f.teamId = none ∨ f.teamId = some "") :
    (handler "POST" (.ok f) now w).1 = .badRequest
    ∧ (handler "POST" (.ok f) now w).2.storageCalls = []
    ∧ (handler "POST" (.ok f) now w).2.dbCalls = [] := by
  have hv : validationFails f = true := by
    rcases h with h | h | h | h | h | h | h | h | h <;>
      simp [validationFails, strPresent, h]
  rw [handler_validation_fail f now w hv]
  exact ⟨rfl, rfl, rfl⟩

/-- Witness for the amended C1 at a concrete request missing its title. -/
theorem invalid_input_rejected_witness :
    (handler "POST" (.ok noTitleForm) "2025-01-01T00:00:00.000Z" okWorld).1
        = .badRequest
    ∧ (handler "POST" (.ok noTitleForm) "2025-01-01T00:00:00.000Z"
        okWorld).2.storageCalls = []
    ∧ (handler "POST" (.ok noTitleForm) "2025-01-01T00:00:00.000Z"
        okWorld).2.dbCalls = [] :=
  invalid_input_rejected_before_collaborators noTitleForm
    "2025-01-01T00:00:00.000Z" okWorld (Or.inl rfl)

/-- C2 counterexample: on a run whose video storage call fails, the handler
returns 500 without attempting a single unlink, although two staging files
exist — the thrown put error skips the cleanup block, so the claim that
staging files are removed on every failure path is false. -/
theorem c2_storage_failure_leaks_staging_files :
    (handler "POST" (.ok sampleForm) "2025-01-01T00:00:00.000Z" vFailWorld).1
        = .serverError "blob video down"
    ∧ stagedFiles sampleForm = ["./tmp/movie.mp4", "./tmp/thumb.jpg"]
    ∧ (handler "POST" (.ok sampleForm) "2025-01-01T00:00:00.000Z"
        vFailWorld).2.unlinkAttempts = [] := by
  rw [handler_video_put_fails sampleForm _ vFailWorld sampleVideoFile
    sampleThumbFile "team_1" "blob video down" (by decide) rfl rfl rfl rfl]
  exact ⟨rfl, rfl, rfl⟩

/-- The returned result is a function of the collaborator outcomes only:
the two unlink flags never influence it (the source catches every unlink
error and only logs it). -/
lemma result_ignores_unlink (f : ParsedForm) (now : String)
    (vp tp : Except String BlobResult) (cd : Except String String)
    (u1 u2 b1 b2 : Bool) :
    (handler "POST" (.ok f) now ⟨vp, tp, cd, b1, b2⟩).1
      = (handler "POST" (.ok f) now ⟨vp, tp, cd, u1, u2⟩).1 := by
  rcases hv : validationFails f with - | - <;>
    rcases h1 : f.videoFile with - | vf <;>
    rcases h2 : f.thumbnailFile with - | tf <;>
    rcases h3 : f.teamId with - | team <;>
    rcases vp with e | vb <;>
    rcases tp with e2 | tb <;>
    rcases cd with e3 | did <;>
    simp [handler, hv, h1, h2, h3]

/-- C2 amended: staging-file removal is attempted on the validation-failure
path (each staged file, each unlink with its own catch) and on every run
that gets past both storage calls (video staging file always; thumbnail
staging file only when the video unlink succeeded, since both unlinks share
one try block); when either storage call fails, no removal is attempted and
the staging files are left behind; and the outcome of the unlink calls never
changes the returned result. -/
theorem staging_cleanup_paths (f : ParsedForm) (now : String) (w : World)
    (b1 b2 : Bool) :
    (validationFails f = true →
      (handler "POST" (.ok f) now w).2.unlinkAttempts = stagedFiles f)
    ∧ (∀ vf tf team vb tb, validationFails f = false → f.videoFile = some vf
        → f.thumbnailFile = some tf → f.teamId = some team
        → w.videoPut = .ok vb → w.thumbPut = .ok tb →
        (handler "POST" (.ok f) now w).2.unlinkAttempts =
          (if w.unlinkVideoOk then [vf.filepath, tf.filepath]
            else [vf.filepath]))
    ∧ (∀ e, validationFails f = false →
        (w.videoPut = .error e ∨ w.thumbPut = .error e) →
        (handler "POST" (.ok f) now w).2.unlinkAttempts = [])
    ∧ (handler "POST" (.ok f) now
          { w with unlinkVideoOk := b1, unlinkThumbOk := b2 }).1
        = (handler "POST" (.ok f) now w).1 := by
  refine ⟨?_, ?_, ?_, ?_⟩
  · intro hv
    rw [handler_validation_fail f now w hv]
  · intro vf tf team vb tb hv h1 h2 h3 hok1 hok2
    rcases hd : w.createDoc with e | did
    · rw [handler_persist_fails f now w vf tf team e vb tb hv h1 h2 h3 hok1
        hok2 hd]
      rfl
    · rw [handler_success f now w vf tf team did vb tb hv h1 h2 h3 hok1
        hok2 hd]
      rfl
  · intro e hv he
    obtain ⟨vf, tf, team, h1, h2, h3⟩ := validation_ok_parts f hv
    rcases he with he | he
    · rw [handler_video_put_fails f now w vf tf team e hv h1 h2 h3 he]
      rfl
    · rcases hok : w.videoPut with e2 | vb
      · rw [handler_video_put_fails f now w vf tf team e2 hv h1 h2 h3 hok]
        rfl
      · rw [handler_thumb_put_fails f now w vf tf team e vb hv h1 h2 h3
          hok he]
        rfl
  · rcases w with ⟨vp, tp, cd, u1, u2⟩
    exact result_ignores_unlink f now vp tp cd u1 u2 b1 b2

/-- Witness for the amended C2: on the concrete run whose thumbnail storage
call fails, no unlink is attempted. -/
theorem staging_cleanup_paths_witness :
    (handler "POST" (.ok sampleForm) "2025-01-01T00:00:00.000Z"
        tFailWorld).2.unlinkAttempts = [] :=
  (staging_cleanup_paths sampleForm "2025-01-01T00:00:00.000Z" tFailWorld
    true true).2.2.1 "blob thumb down" (by decide) (Or.inr rfl)

/-- C3: whenever the video storage call succeeds and the thumbnail storage
call fails, the handler returns 500 carrying exactly the thumbnail call's
diagnostic (the error of the thumbnail stage, the code's only tagging),
makes zero document-store calls, and never deletes the already-stored video
blob (the code contains no blob-deletion call at all). -/
theorem thumb_failure_no_persist_no_retract (f : ParsedForm) (now : String)
    (w : World) (vf tf : FormFile) (team e : String) (vb : BlobResult)
    (hv : validationFails f = false) (h1 : f.videoFile = some vf)
    (h2 : f.thumbnailFile = some tf) (h3 : f.teamId = some team)
    (hok : w.videoPut = .ok vb) (he : w.thumbPut = .error e) :
    (handler "POST" (.ok f) now w).1 = .serverError e
    ∧ (handler "POST" (.ok f) now w).2.dbCalls = []
    ∧ (handler "POST" (.ok f) now w).2.assetDeleteCalls = 0 := by
  rw [handler_thumb_put_fails f now w vf tf team e vb hv h1 h2 h3 hok he]
  exact ⟨rfl, rfl, rfl⟩

/-- Witness for C3 at the concrete thumbnail-failure world. -/
theorem thumb_failure_witness :
    (handler "POST" (.ok sampleForm) "2025-01-01T00:00:00.000Z" tFailWorld).1
        = .serverError "blob thumb down"
    ∧ (handler "POST" (.ok sampleForm) "2025-01-01T00:00:00.000Z"
        tFailWorld).2.dbCalls = []
    ∧ (handler "POST" (.ok sampleForm) "2025-01-01T00:00:00.000Z"
        tFailWorld).2.assetDeleteCalls = 0 :=
  thumb_failure_no_persist_no_retract sampleForm "2025-01-01T00:00:00.000Z"
    tFailWorld sampleVideoFile sampleThumbFile "team_1" "blob thumb down"
    { url := "https://blob.example/movie.mp4" } (by decide) rfl rfl rfl rfl rfl

/-- C4: on a fully successful run, exactly one record is submitted to the
document store; its videoUrl and thumbnailUrl are exactly the url strings the
two storage calls returned, and its viewsCount is 0. -/
theorem success_single_record_urls (f : ParsedForm) (now : String) (w : World)
    (vf tf : FormFile) (team did : String) (vb tb : BlobResult)
    (hv : validationFails f = false) (h1 : f.videoFile = some vf)
    (h2 : f.thumbnailFile = some tf) (h3 : f.teamId = some team)
    (hok1 : w.videoPut = .ok vb) (hok2 : w.thumbPut = .ok tb)
    (hok3 : w.createDoc = .ok did) :
    (handler "POST" (.ok f) now w).1
        = .ok (builtDoc f now vb.url tb.url) vb.url tb.url
    ∧ (handler "POST" (.ok f) now w).2.dbCalls.length = 1
    ∧ (handler "POST" (.ok f) now w).2.dbCalls.map
          (fun dp => (dp.1.videoUrl, dp.1.thumbnailUrl, dp.1.viewsCount))
        = [(vb.url, tb.url, 0)] := by
  rw [handler_success f now w vf tf team did vb tb hv h1 h2 h3 hok1 hok2 hok3]
  exact ⟨rfl, rfl, rfl⟩

/-- Witness for C4 at the concrete all-success run. -/
theorem success_single_record_urls_witness :
    (handler "POST" (.ok sampleForm) "2025-01-01T00:00:00.000Z" okWorld).1
        = .ok (builtDoc sampleForm "2025-01-01T00:00:00.000Z"
            "https://blob.example/movie.mp4" "https://blob.example/thumb.jpg")
          "https://blob.example/movie.mp4" "https://blob.example/thumb.jpg"
    ∧ (handler "POST" (.ok sampleForm) "2025-01-01T00:00:00.000Z"
        okWorld).2.dbCalls.length = 1
    ∧ (handler "POST" (.ok sampleForm) "2025-01-01T00:00:00.000Z"
        okWorld).2.dbCalls.map
          (fun dp => (dp.1.videoUrl, dp.1.thumbnailUrl, dp.1.viewsCount))
        = [("https://blob.example/movie.mp4", "https://blob.example/thumb.jpg",
            0)] :=
  success_single_record_urls sampleForm "2025-01-01T00:00:00.000Z" okWorld
    sampleVideoFile sampleThumbFile "team_1" "doc_1"
    { url := "https://blob.example/movie.mp4" }
    { url := "https://blob.example/thumb.jpg" }
    (by decide) rfl rfl rfl rfl rfl rfl

/-- C5: on a fully successful run, the permission list submitted with the
record is exactly public read plus update and delete restricted to the team
named by the request's teamId field. -/
theorem success_record_permissions (f : ParsedForm) (now : String) (w : World)
    (vf tf : FormFile) (team did : String) (vb tb : BlobResult)
    (hv : validationFails f = false) (h1 : f.videoFile = some vf)
    (h2 : f.thumbnailFile = some tf) (h3 : f.teamId = some team)
    (hok1 : w.videoPut = .ok vb) (hok2 : w.thumbPut = .ok tb)
    (hok3 : w.createDoc = .ok did) :
    (handler "POST" (.ok f) now w).2.dbCalls.map Prod.snd
        = [[ AppwritePermission.read Role.any,
             AppwritePermission.update (Role.team team),
             AppwritePermission.delete (Role.team team) ]] := by
  rw [handler_success f now w vf tf team did vb tb hv h1 h2 h3 hok1 hok2 hok3]
  rfl

/-- Witness for C5 at the concrete all-success run: team_1 as in the spec
scenario. -/
theorem success_record_permissions_witness :
    (handler "POST" (.ok sampleForm) "2025-01-01T00:00:00.000Z"
        okWorld).2.dbCalls.map Prod.snd
      = [[ AppwritePermission.read Role.any,
           AppwritePermission.update (Role.team "team_1"),
           AppwritePermission.delete (Role.team "team_1") ]] :=
  success_record_permissions sampleForm "2025-01-01T00:00:00.000Z" okWorld
    sampleVideoFile sampleThumbFile "team_1" "doc_1"
    { url := "https://blob.example/movie.mp4" }
    { url := "https://blob.example/thumb.jpg" }
    (by decide) rfl rfl rfl rfl rfl rfl

/-- C7: in every run, the document store is written only after both storage
calls succeeded (in order video then thumbnail, so the trace then holds
exactly two storage calls); at most one record is ever submitted; a failing
video call stops the pipeline before the thumbnail call and before the
document store; a failing thumbnail call stops it before the document
store. -/
theorem pipeline_stage_order (method : String)
    (p : Except String ParsedForm) (now : String) (w : World) :
    ((handler method p now w).2.dbCalls ≠ [] →
      (∃ vb, w.videoPut = .ok vb) ∧ (∃ tb, w.thumbPut = .ok tb)
      ∧ (handler method p now w).2.storageCalls.length = 2)
    ∧ (handler method p now w).2.dbCalls.length ≤ 1
    ∧ (∀ e, w.videoPut = .error e →
        (handler method p now w).2.storageCalls.length ≤ 1
        ∧ (handler method p now w).2.dbCalls = [])
    ∧ (∀ e, w.thumbPut = .error e →
        (handler method p now w).2.dbCalls = []) := by
  by_cases hm : method = "POST"
  · subst hm
    cases p with
    | error e =>
      rw [handler_parse_error e now w]
      exact ⟨fun h => absurd rfl h, by simp [emptyTrace],
        fun e2 h => ⟨by simp [emptyTrace], rfl⟩, fun e2 h => rfl⟩
    | ok f =>
      rcases hv : validationFails f with - | -
      · obtain ⟨vf, tf, team, h1, h2, h3⟩ := validation_ok_parts f hv
        rcases hvp : w.videoPut with e | vb
        · rw [handler_video_put_fails f now w vf tf team e hv h1 h2 h3 hvp]
          exact ⟨fun h => absurd rfl h, by simp [emptyTrace],
            fun e2 h => ⟨by simp, rfl⟩, fun e2 h => rfl⟩
        · rcases htp : w.thumbPut with e | tb
          · rw [handler_thumb_put_fails f now w vf tf team e vb hv h1 h2 h3
              hvp htp]
            exact ⟨fun h => absurd rfl h, by simp [emptyTrace],
              fun e2 h => Except.noConfusion h, fun e2 h => rfl⟩
          · rcases hd : w.createDoc with e | did
            · rw [handler_persist_fails f now w vf tf team e vb tb hv h1 h2
                h3 hvp htp hd]
              exact ⟨fun _ => ⟨⟨vb, rfl⟩, ⟨tb, rfl⟩, rfl⟩,
                by simp [postStorageTrace],
                fun e2 h => Except.noConfusion h,
                fun e2 h => Except.noConfusion h⟩
            · rw [handler_success f now w vf tf team did vb tb hv h1 h2 h3
                hvp htp hd]
              exact ⟨fun _ => ⟨⟨vb, rfl⟩, ⟨tb, rfl⟩, rfl⟩,
                by simp [postStorageTrace],
                fun e2 h => Except.noConfusion h,
                fun e2 h => Except.noConfusion h⟩
      · rw [handler_validation_fail f now w hv]
        exact ⟨fun h => absurd rfl h, by simp [emptyTrace],
          fun e h => ⟨by simp [emptyTrace], rfl⟩, fun e h => rfl⟩
  · rw [handler_non_post method p now w hm]
    exact ⟨fun h => absurd rfl h, by simp [emptyTrace],
      fun e h => ⟨by simp [emptyTrace], rfl⟩, fun e h => rfl⟩

/-- Witness for C7 at the concrete video-failure world: one storage call, no
document-store call. -/
theorem pipeline_stage_order_witness :
    (handler "POST" (.ok sampleForm) "2025-01-01T00:00:00.000Z"
        vFailWorld).2.storageCalls.length ≤ 1
    ∧ (handler "POST" (.ok sampleForm) "2025-01-01T00:00:00.000Z"
        vFailWorld).2.dbCalls = [] :=
  (pipeline_stage_order "POST" (.ok sampleForm) "2025-01-01T00:00:00.000Z"
    vFailWorld).2.2.1 "blob video down" rfl

/-- C8 counterexample: two distinct requests (ids 0 and 1) whose video part
carries the same client-supplied original filename are staged at the same
path ./tmp/movie.mp4, so staging file names of distinct concurrent requests
do collide. -/
theorem c8_staging_names_collide :
    (0 : Nat) ≠ 1
    ∧ requestStagingPath 0 "videoFile" ".mp4" (some "movie.mp4")
        = requestStagingPath 1 "videoFile" ".mp4" (some "movie.mp4")
    ∧ requestStagingPath 0 "videoFile" ".mp4" (some "movie.mp4")
        = "./tmp/movie.mp4" := by
  exact ⟨by decide, rfl, by decide⟩

/-- C8 amended: the staging path is a function of the part's field name,
extension and client-supplied original filename alone — the formidable
configuration is a module-level constant, so no per-request component enters
the name, and any two requests (concurrent or not) whose parts carry the
same metadata are staged at the identical path under ./tmp. -/
theorem staging_path_ignores_request (r1 r2 : Nat) (fieldName ext : String)
    (orig : Option String) :
    requestStagingPath r1 fieldName ext orig
      = requestStagingPath r2 fieldName ext orig := by
  rfl

/-- A decimal digit is not parseInt whitespace and is not a sign. -/
lemma digit_not_special (c : Char) (h : c.isDigit = true) :
    jsWhitespace c = false ∧ ¬ c = '-' ∧ ¬ c = '+' := by
  refine ⟨?_, fun hc => by subst hc; exact absurd h (by decide),
    fun hc => by subst hc; exact absurd h (by decide)⟩
  cases hw : jsWhitespace c
  · rfl
  · exfalso
    simp only [jsWhitespace, Bool.or_eq_true, beq_iff_eq] at hw
    rcases hw with ((((hc | hc) | hc) | hc) | hc) | hc <;>
      (subst hc; exact absurd h (by decide))

/-- takeWhile isDigit over an all-digit block followed by a non-digit (or
nothing) returns exactly the block. -/
lemma takeWhile_digits_append (ds rest : List Char)
    (hds : ∀ c ∈ ds, c.isDigit = true)
    (hrest : rest = [] ∨ ∃ c t, rest = c :: t ∧ c.isDigit = false) :
    (ds ++ rest).takeWhile Char.isDigit = ds := by
  induction ds with
  | nil =>
    rcases hrest with h | ⟨c, t, h, hc⟩
    · simp [h]
    · simp [h, List.takeWhile_cons, hc]
  | cons d ds2 ih =>
    have hd : d.isDigit = true := hds d (List.mem_cons_self d ds2)
    simp only [List.cons_append, List.takeWhile_cons, hd, if_true]
    rw [ih (fun c hc => hds c (List.mem_cons_of_mem d hc))]

/-- parseInt on a string made of a non-empty digit block followed by a
non-digit tail returns the value of the block. -/
lemma jsParseInt_digits_append (ds rest : List Char) (hne : ds ≠ [])
    (hds : ∀ c ∈ ds, c.isDigit = true)
    (hrest : rest = [] ∨ ∃ c t, rest = c :: t ∧ c.isDigit = false) :
    jsParseInt (String.mk (ds ++ rest)) = some ((digitsToNat ds : Int)) := by
  rcases ds with - | ⟨d, ds2⟩
  · exact absurd rfl hne
  have hd : d.isDigit = true := hds d (List.mem_cons_self d ds2)
  obtain ⟨hw, hminus, hplus⟩ := digit_not_special d hd
  unfold jsParseInt
  simp only [List.cons_append, List.dropWhile_cons, hw, Bool.false_eq_true,
    if_false]
  simp only [if_neg hminus, if_neg hplus]
  unfold parseDigits
  rw [← List.cons_append, takeWhile_digits_append (d :: ds2) rest hds hrest]
  simp

/-- C10: duration extraction is longest-leading-digit-block parseInt.  For
any duration text made of a non-empty block of digits followed by anything
that does not start with a digit (such as "120abc" or "12.9"), parseInt
returns the value of the block, the isNaN validation accepts it, and on a
fully successful run the stored duration is that value; a duration text
parseInt cannot read a number from is rejected with 400 and zero
collaborator calls. -/
theorem duration_longest_leading_digits (ds rest : List Char)
    (f : ParsedForm) (now : String) (w : World) (hne : ds ≠ [])
    (hds : ∀ c ∈ ds, c.isDigit = true)
    (hrest : rest = [] ∨ ∃ c t, rest = c :: t ∧ c.isDigit = false) :
    jsParseInt (String.mk (ds ++ rest)) = some ((digitsToNat ds : Int))
    ∧ (f.duration = some (String.mk (ds ++ rest)) →
        extractDuration f = some ((digitsToNat ds : Int)))
    ∧ (∀ s, f.duration = some s → jsParseInt s = none →
        (handler "POST" (.ok f) now w).1 = .badRequest
        ∧ (handler "POST" (.ok f) now w).2.storageCalls = []
        ∧ (handler "POST" (.ok f) now w).2.dbCalls = [])
    ∧ (∀ vf tf team vb tb did,
        f.duration = some (String.mk (ds ++ rest)) →
        validationFails f = false → f.videoFile = some vf →
        f.thumbnailFile = some tf → f.teamId = some team →
        w.videoPut = .ok vb → w.thumbPut = .ok tb → w.createDoc = .ok did →
        (builtDoc f now vb.url tb.url).duration = (digitsToNat ds : Int)
        ∧ (handler "POST" (.ok f) now w).1
            = .ok (builtDoc f now vb.url tb.url) vb.url tb.url) := by
  have hcore := jsParseInt_digits_append ds rest hne hds hrest
  refine ⟨hcore, fun hd => ?_, fun s hd hnone => ?_,
    fun vf tf team vb tb did hd hv h1 h2 h3 hok1 hok2 hok3 => ?_⟩
  · simp [extractDuration, hd, hcore]
  · have hext : extractDuration f = none := by
      simp [extractDuration, hd, hnone]
    have hv : validationFails f = true := by
      simp [validationFails, hext]
    rw [handler_validation_fail f now w hv]
    exact ⟨rfl, rfl, rfl⟩
  · have hext : extractDuration f = some ((digitsToNat ds : Int)) := by
      simp [extractDuration, hd, hcore]
    constructor
    · simp [builtDoc, hext]
    · rw [handler_success f now w vf tf team did vb tb hv h1 h2 h3 hok1
        hok2 hok3]

/-- Witness for C10 at the concrete duration text "120abc": parseInt reads
120. -/
theorem duration_longest_leading_digits_witness :
    jsParseInt (String.mk (['1', '2', '0'] ++ ['a', 'b', 'c']))
      = some ((digitsToNat ['1', '2', '0'] : Int)) :=
  (duration_longest_leading_digits ['1', '2', '0'] ['a', 'b', 'c'] sampleForm
    "2025-01-01T00:00:00.000Z" okWorld (by decide) (by decide)
    (Or.inr ⟨'a', ['b', 'c'], rfl, by decide⟩)).1

end BingeIn
